import Mathlib

/-!
Shallow embedding of `cmd/minimal/main.go`: a minimal standard-library web
server with graceful shutdown.  Durations are modelled as integer
nanoseconds (Go's `time.Duration`), Go errors as an inductive `GoError`
(`nil` being `Option.none`), and the shutdown coordinator's effects as an
explicit trace of primitive events.
-/

namespace Minimal

/-- Go errors relevant to this program: the `http.ErrServerClosed` sentinel
and any other error (carrying its message). Go's `nil` error is modelled as
`Option.none` at use sites. -/
inductive GoError where
  | errServerClosed : GoError
  | other : String → GoError
deriving DecidableEq, Repr

/-- One nanosecond count for `time.Second`. -/
def timeSecond : Int := 1000000000

/-- `httpReadTimeout = 10 * time.Second` from the source. -/
def httpReadTimeout : Int := 10 * timeSecond

/-- `httpWriteTimeout = 10 * time.Second` from the source. -/
def httpWriteTimeout : Int := 10 * timeSecond

/-- `httpMaxHeaderBytes = 1 << 20` from the source. -/
def httpMaxHeaderBytes : Nat := 2 ^ 20

/-- `defaultHostPort = ":4000"` from the source. -/
def defaultHostPort : String := ":4000"

/-- `envVarAddress = "ADDRESS"` from the source. -/
def envVarAddress : String := "ADDRESS"

/-- `gracePeriod = 29 * time.Second` from the source (its comment: the
default grace period for kubernetes is 30 seconds, so give us one less). -/
def gracePeriod : Int := 29 * timeSecond

/-- `contentTypeTextPlain = "text/plain; charset=utf-8"` from the source. -/
def contentTypeTextPlain : String := "text/plain; charset=utf-8"

/-! ## The shutdown coordinator

`shutdown` returns a closure that, once the context is cancelled, runs a
fixed sequence of primitive steps on its own goroutine.  We embed one
execution of that closure as the list of steps it performs, parameterised
by the result the drain (`httpServer.Shutdown`) call returns. -/

/-- A primitive step performed by the closure returned by `shutdown`. -/
inductive ShutdownEvent where
  | waitCtxDone : ShutdownEvent
  | setKeepAlivesEnabled : Bool → ShutdownEvent
  | shutdownCall : Int → ShutdownEvent
  | sendOnChan : GoError → ShutdownEvent
  | closeChan : ShutdownEvent
deriving DecidableEq, Repr

/-- The exact trace of the closure returned by `shutdown` (main.go lines
36-50): wait for cancellation, disable keep-alives, call `Shutdown` with a
`gracePeriod`-bounded context, send the drain error on the channel when it
is non-nil, and close the channel.  `drainResult` is what
`httpServer.Shutdown` returns (`none` = nil). -/
def shutdownTrace (drainResult : Option GoError) (gp : Int) : List ShutdownEvent :=
  ShutdownEvent.waitCtxDone ::
  ShutdownEvent.setKeepAlivesEnabled false ::
  ShutdownEvent.shutdownCall gp ::
  ((match drainResult with
    | some e => [ShutdownEvent.sendOnChan e]
    | none => []) ++ [ShutdownEvent.closeChan])

/-- Whether an event is a send on the result channel. -/
def isSend : ShutdownEvent → Bool
  | ShutdownEvent.sendOnChan _ => true
  | _ => false

/-- Whether an event is the close of the result channel. -/
def isClose : ShutdownEvent → Bool
  | ShutdownEvent.closeChan => true
  | _ => false

/-- Whether an event mutates the listener (`httpServer`). -/
def serverMutation : ShutdownEvent → Bool
  | ShutdownEvent.setKeepAlivesEnabled _ => true
  | ShutdownEvent.shutdownCall _ => true
  | _ => false

/-- The value the send on the event, when it is a send. -/
def sentOnChan : ShutdownEvent → Option GoError
  | ShutdownEvent.sendOnChan e => some e
  | _ => none

/-- What a consumer blocked on the result channel receives from a trace:
the first value sent, or `none` (Go's zero value for a closed channel of
errors) when the channel is closed without a send. -/
def chanYield (tr : List ShutdownEvent) : Option GoError :=
  match tr.filterMap sentOnChan with
  | [] => none
  | e :: _ => some e

/-! ## The run lifecycle -/

/-- Go's `unicode.IsSpace`, as used by `strings.TrimSpace`: the
White_Space code points. -/
def goIsSpace (c : Char) : Bool :=
  c.val = 0x09 || c.val = 0x0A || c.val = 0x0B || c.val = 0x0C ||
  c.val = 0x0D || c.val = 0x20 || c.val = 0x85 || c.val = 0xA0 ||
  c.val = 0x1680 || (0x2000 ≤ c.val && c.val ≤ 0x200A) ||
  c.val = 0x2028 || c.val = 0x2029 || c.val = 0x202F ||
  c.val = 0x205F || c.val = 0x3000

/-- Go's `strings.TrimSpace`: drop leading and trailing white space. -/
def trimSpace (s : String) : String :=
  String.mk (((s.data.dropWhile goIsSpace).reverse.dropWhile goIsSpace).reverse)

/-- The listen-address resolution in `run` (main.go lines 85-88): the
environment variable, or the default when it trims to empty. -/
def resolveHostPort (getenv : String → String) : String :=
  let hostport := getenv envVarAddress
  if trimSpace hostport = "" then defaultHostPort else hostport

/-- The configuration `run` builds before serving: the resolved listen
address, and the grace period it passes to the spawned shutdown
coordinator — the literal `30*time.Second` at main.go line 104. -/
structure RunConfig where
  hostport : String
  spawnedGracePeriod : Int
deriving DecidableEq, Repr

/-- The setup phase of `run` (main.go lines 85-104). -/
def runSetup (getenv : String → String) : RunConfig :=
  { hostport := resolveHostPort getenv
    spawnedGracePeriod := 30 * timeSecond }

/-- Go's `errors.Is(err, http.ErrServerClosed)` for our error model: the
target is non-nil and not wrapped, so only the sentinel itself matches. -/
def errorsIsServerClosed : Option GoError → Bool
  | some GoError.errServerClosed => true
  | _ => false

/-- The tail of `run` (main.go lines 107-113), after `ListenAndServe`
returns `serveResult`: when the result is not the `http.ErrServerClosed`
sentinel it is returned at once; otherwise `run` blocks on the result
channel (modelled by `chanYieldVal`) and returns what it yields.  The
second component records whether the channel was read. -/
def runAfterServe (serveResult chanYieldVal : Option GoError) :
    Option GoError × Bool :=
  if errorsIsServerClosed serveResult then (chanYieldVal, true)
  else (serveResult, false)

/-! ## The hello handler -/

/-- An HTTP request as the handler can observe it.  `pathValues` models the
wildcard bindings the router sets (`req.PathValue`). -/
structure Request where
  methodName : String
  urlPath : String
  rawQuery : String
  reqHeaders : List (String × String)
  reqBody : String
  remoteAddr : String
  pathValues : List (String × String)
deriving DecidableEq, Repr

/-- Go's `req.PathValue(key)`: the bound wildcard value, or `""` when the
key is not bound. -/
def Request.pathValue (r : Request) (key : String) : String :=
  match r.pathValues.lookup key with
  | some v => v
  | none => ""

/-- An HTTP response as recorded by a response writer. -/
structure Response where
  status : Nat
  headers : List (String × String)
  body : String
deriving DecidableEq, Repr

/-- The handler returned by `handleHello` (main.go lines 58-66): set the
Content-Type header, write status 200, and print `Hello %s\n` with the
`name` path value. -/
def handleHello (req : Request) : Response :=
  let name := req.pathValue "name"
  { status := 200
    headers := [("Content-Type", contentTypeTextPlain)]
    body := "Hello " ++ name ++ "\n" }

/-! ## Helper lemmas -/

/-- Trimming yields the empty string exactly when every character is white
space (in particular when the string is empty). -/
theorem trimSpace_eq_empty_iff (s : String) :
    trimSpace s = "" ↔ s.data.all goIsSpace = true := by
  unfold trimSpace
  constructor
  · intro h
    have h1 : ((s.data.dropWhile goIsSpace).reverse.dropWhile goIsSpace).reverse = [] := by
      simpa using congrArg String.data h
    rw [List.reverse_eq_nil_iff, List.dropWhile_eq_nil_iff] at h1
    rw [List.all_eq_true]
    intro x hx
    rw [← List.takeWhile_append_dropWhile goIsSpace s.data] at hx
    rcases List.mem_append.mp hx with h2 | h2
    · exact List.mem_takeWhile_imp h2
    · exact h1 x (List.mem_reverse.mpr h2)
  · intro h
    have h0 : s.data.dropWhile goIsSpace = [] :=
      List.dropWhile_eq_nil_iff.mpr (fun x hx => List.all_eq_true.mp h x hx)
    rw [h0]
    rfl

/-- A consumer blocked on the coordinator's channel receives exactly the
drain result: the sent error when the drain failed, `none` after a close
with no send. -/
theorem chanYield_shutdownTrace (d : Option GoError) (gp : Int) :
    chanYield (shutdownTrace d gp) = d := by
  cases d <;> rfl

/-! ## The claims -/

/-- Claim C1: the spec says the lifecycle passes the 29-second
`gracePeriod` constant to the shutdown coordinator.  The code instead
passes the literal `30*time.Second` at the spawn site (main.go line 104),
leaving the `gracePeriod` constant unused: for every environment, the
spawned grace period is 30 seconds and differs from the 29-second
constant. -/
theorem c1_spawned_grace_period_is_30s_not_29s (getenv : String → String) :
    (runSetup getenv).spawnedGracePeriod = 30 * timeSecond ∧
    gracePeriod = 29 * timeSecond ∧
    (runSetup getenv).spawnedGracePeriod ≠ gracePeriod := by
  refine ⟨rfl, rfl, ?_⟩
  intro h
  simp only [runSetup, gracePeriod, timeSecond] at h
  norm_num at h

/-- Claim C2: in every execution of the coordinator, the first three steps
are exactly waiting for cancellation, disabling keep-alives, then the
bounded drain call — so keep-alive disablement precedes the drain — and no
send on the result channel occurs among those first three steps, hence
every send strictly follows the drain call. -/
theorem c2_coordinator_step_order (d : Option GoError) (gp : Int) :
    (shutdownTrace d gp).take 3 =
      [ShutdownEvent.waitCtxDone, ShutdownEvent.setKeepAlivesEnabled false,
       ShutdownEvent.shutdownCall gp] ∧
    ((shutdownTrace d gp).take 3).countP isSend = 0 := by
  cases d <;> exact ⟨rfl, rfl⟩

/-- Claim C3: the coordinator sends exactly one value when the drain
returned an error and none otherwise, closes the channel exactly once, and
the close is the very last step — so it never sends more than once and
never sends after close. -/
theorem c3_single_send_then_close (d : Option GoError) (gp : Int) :
    (shutdownTrace d gp).countP isSend = (if d.isSome then 1 else 0) ∧
    (shutdownTrace d gp).countP isClose = 1 ∧
    (shutdownTrace d gp).getLast? = some ShutdownEvent.closeChan := by
  cases d <;> exact ⟨rfl, rfl, rfl⟩

/-- The shutdown events the goroutine spawned by `run` actually performs.
The statement at main.go line 104 is `go shutdown(ctx, srv, errChan,
30*time.Second)` with no trailing `()` (the tests invoke the closure as
`go shutdown(...)()`): the goroutine evaluates the `shutdown` constructor,
which only builds and returns the inner closure, and the returned closure
is discarded without ever being invoked — so none of the closure's steps
(wait, keep-alive disable, drain, send, close) is executed. -/
def spawnedCoordinatorTrace : List ShutdownEvent := []

/-- Claim C4 concerns `run` returning what the coordinator's channel
yields on clean closure, but the spawn at main.go line 104 discards the
returned closure, so the coordinator body never runs: the spawned
goroutine performs no send, no close, and no listener mutation — in
particular `Shutdown` is never called, nothing is ever placed on the
channel, the channel is never closed, and a consumer blocked reading it
can never be released. -/
theorem c4_coordinator_never_runs :
    spawnedCoordinatorTrace.countP isSend = 0 ∧
    spawnedCoordinatorTrace.countP isClose = 0 ∧
    spawnedCoordinatorTrace.filter serverMutation = [] :=
  ⟨rfl, rfl, rfl⟩

/-- Claim C5: when serve returns an error other than the
`http.ErrServerClosed` sentinel, `run` returns that error at once and does
not read the coordinator's channel, whatever that channel would yield. -/
theorem c5_non_sentinel_error_short_circuits (e : GoError) (ch : Option GoError)
    (h : e ≠ GoError.errServerClosed) :
    runAfterServe (some e) ch = (some e, false) := by
  cases e with
  | errServerClosed => exact absurd rfl h
  | other m => rfl

/-- Witness for C5 at a concrete bind failure. -/
theorem c5_short_circuit_witness :
    runAfterServe (some (GoError.other "listen tcp :4000: bind: address already in use"))
        none =
      (some (GoError.other "listen tcp :4000: bind: address already in use"), false) :=
  c5_non_sentinel_error_short_circuits _ none (fun h => GoError.noConfusion h)

/-- Claim C6: any request whose `name` path parameter is `name` gets
status 200, the `text/plain; charset=utf-8` content type, and body
`Hello <name>\n` with the name inserted verbatim and a trailing
newline. -/
theorem c6_hello_response (req : Request) (name : String)
    (h : req.pathValue "name" = name) :
    handleHello req =
      { status := 200
        headers := [("Content-Type", "text/plain; charset=utf-8")]
        body := "Hello " ++ name ++ "\n" } := by
  simp [handleHello, contentTypeTextPlain, h]

/-- A concrete request for the hello endpoint, as in the repository's
direct handler test. -/
def demoHelloRequest : Request :=
  { methodName := "GET"
    urlPath := "/hello/Testing"
    rawQuery := ""
    reqHeaders := [("Host", "localhost:4000")]
    reqBody := ""
    remoteAddr := "192.0.2.1:1234"
    pathValues := [("name", "Testing")] }

/-- Witness for C6 at the concrete request of the repository's test. -/
theorem c6_hello_response_witness :
    demoHelloRequest.pathValue "name" = "Testing" ∧
    handleHello demoHelloRequest =
      { status := 200
        headers := [("Content-Type", "text/plain; charset=utf-8")]
        body := "Hello Testing\n" } :=
  ⟨rfl, c6_hello_response demoHelloRequest "Testing" rfl⟩

/-- Claim C7: the resolved listen address is the fixed default `:4000`
when the address variable is absent (empty) or all white space, and the
variable's value verbatim otherwise. -/
theorem c7_listen_address_resolution (getenv : String → String) :
    resolveHostPort getenv =
      if (getenv envVarAddress).data.all goIsSpace then ":4000"
      else getenv envVarAddress := by
  unfold resolveHostPort
  by_cases h : (getenv envVarAddress).data.all goIsSpace = true
  · rw [if_pos ((trimSpace_eq_empty_iff _).mpr h), if_pos h]
    rfl
  · rw [if_neg (fun hc => h ((trimSpace_eq_empty_iff _).mp hc)), if_neg h]

/-- Claim C8: `run` consults the coordinator's channel exactly when serve
returned the deliberate-closure sentinel; in particular a nil serve result
is returned at once as success without reading the channel. -/
theorem c8_chan_read_iff_sentinel (s ch : Option GoError) :
    ((runAfterServe s ch).2 = true ↔ s = some GoError.errServerClosed) ∧
    runAfterServe none ch = (none, false) := by
  refine ⟨?_, rfl⟩
  cases s with
  | none => simp [runAfterServe, errorsIsServerClosed]
  | some e => cases e <;> simp [runAfterServe, errorsIsServerClosed]

/-- Claim C9: per invocation the coordinator's only mutations of the
listener are exactly one keep-alive disablement (argument `false`)
followed by exactly one drain call — no re-enable, no retried drain,
whatever the drain outcome. -/
theorem c9_listener_mutation_sequence (d : Option GoError) (gp : Int) :
    (shutdownTrace d gp).filter serverMutation =
      [ShutdownEvent.setKeepAlivesEnabled false, ShutdownEvent.shutdownCall gp] := by
  cases d <;> rfl

/-- Claim C10: the hello handler is a deterministic function of the `name`
path value alone: two requests agreeing on it get identical responses,
whatever their other headers, bodies, queries or remote addresses. -/
theorem c10_handler_depends_only_on_name (r1 r2 : Request)
    (h : r1.pathValue "name" = r2.pathValue "name") :
    handleHello r1 = handleHello r2 := by
  simp [handleHello, h]

/-- A hello request with no extra request data. -/
def reqVariantA : Request :=
  { methodName := "GET"
    urlPath := "/hello/World"
    rawQuery := ""
    reqHeaders := []
    reqBody := ""
    remoteAddr := "10.0.0.1:5555"
    pathValues := [("name", "World")] }

/-- A hello request with the same `name` but different query, headers,
body and remote address. -/
def reqVariantB : Request :=
  { methodName := "GET"
    urlPath := "/hello/World"
    rawQuery := "debug=1"
    reqHeaders := [("X-Forwarded-For", "203.0.113.9")]
    reqBody := "ignored"
    remoteAddr := "10.9.9.9:1"
    pathValues := [("name", "World")] }

/-- Witness for C10 at two concrete requests differing in everything but
the name. -/
theorem c10_same_name_same_response_witness :
    reqVariantA.pathValue "name" = reqVariantB.pathValue "name" ∧
    handleHello reqVariantA = handleHello reqVariantB :=
  ⟨rfl, c10_handler_depends_only_on_name reqVariantA reqVariantB rfl⟩

end Minimal
